import Mathlib

/-!
Shallow embedding of vimiv's image persistence core:
* src/vimiv/imutils/imfile_handler.py — the asynchronous write pipeline
  (ImageFileHandler, WriteImageRunner) and the pixmap role storage;
* src/vimiv/imutils/exif.py — the metadata backend abstraction
  (_InternalKeyHandler, _ExternalKeyHandlerBase, _ExternalKeyHandlerPiexif,
  ExternalKeyHandler, MetadataHandler).

Python exceptions are modelled as values of PyExn carried in Except; the
filesystem is an association list from paths to file contents; the optional
third-party libraries (piexif, pyexiv2) and the Qt image boundary are
modelled at their interface, as the spec treats them as black boxes.
-/

deriving instance DecidableEq for Except

namespace Vimiv

/-- The Python exceptions that appear in the embedded modules. WriteError is
vimiv's own; UnsupportedExifOperation subclasses NotImplementedError and is
neither a KeyError nor a TypeError. -/
inductive PyExn where
  | writeError (msg : String)
  | invalidImageDataError
  | valueError
  | typeError
  | keyError
  | attributeError
  | fileNotFoundError
  | unsupportedExifOperation (msg : String)
  deriving DecidableEq, Repr

/-- Association-list lookup, the model of Python dict access returning None
when the key is absent. -/
def assocFind {κ α : Type} [BEq κ] : List (κ × α) → κ → Option α
  | [], _ => none
  | e :: t, k => if e.1 == k then some e.2 else assocFind t k

/-- Association-list update, the model of dict assignment: replace in place
(Python dicts keep insertion order), append when the key is new. -/
def assocSet {κ α : Type} [BEq κ] : List (κ × α) → κ → α → List (κ × α)
  | [], k, v => [(k, v)]
  | e :: t, k, v => if e.1 == k then (k, v) :: t else e :: assocSet t k v

/-- str.lower. -/
def pyLower (s : String) : String := String.mk (s.data.map Char.toLower)

/-- str.startswith. -/
def pyStartsWith (s pfx : String) : Bool := pfx.data.isPrefixOf s.data

/-- str.strip with no arguments: remove surrounding whitespace. -/
def pyStrip (s : String) : String :=
  String.mk (((s.data.dropWhile Char.isWhitespace).reverse.dropWhile
    Char.isWhitespace).reverse)

/-- os.path.dirname for the paths used here: everything before the final
slash with the trailing slashes stripped; a path without a slash has the
empty dirname and a top-level path has dirname a single slash. -/
def dirname (p : String) : String :=
  let rev := p.data.reverse
  let afterSlash := rev.dropWhile (fun c => c ≠ '/')
  match afterSlash with
  | [] => ""
  | _ =>
      let headRev := afterSlash.dropWhile (fun c => c = '/')
      match headRev with
      | [] => "/"
      | _ => String.mk headRev.reverse

/-- The extension part of os.path.splitext: the suffix starting at the last
dot of the basename; empty when the basename has no dot or only leading
dots. -/
def splitextExt (p : String) : String :=
  let baseRev := p.data.reverse.takeWhile (fun c => c ≠ '/')
  let extRev := baseRev.takeWhile (fun c => c ≠ '.')
  if extRev.length = baseRev.length then ""
  else
    let stemRev := baseRev.drop (extRev.length + 1)
    if stemRev.all (fun c => c = '.') then ""
    else String.mk ('.' :: extRev.reverse)

/-- base_key.rpartition(".")[2]: the text after the last dot, the whole
string when it contains no dot. -/
def afterLastDot (s : String) : String :=
  String.mk ((s.data.reverse.takeWhile (fun c => c ≠ '.')).reverse)

/-! ### The piexif metadata model

piexif.load returns a dict with the fixed group keys 0th, Exif, GPS,
Interop, 1st and thumbnail, each group mapping numeric tag ids to decoded
values. Values are decoded by the library according to the tag type, so the
value constructor also records the tag's type category. -/

/-- A decoded piexif tag value. num covers the integer and float types
(Byte/Short/Long/SByte/SShort/SLong/Float/DFloat), bytes the byte-encoded
types (Ascii/Undefined, already decoded to text), rat the rational types
(Rational/SRational). -/
inductive PiexifValue where
  | num (n : Int)
  | bytes (s : String)
  | rat (n d : Int)
  deriving DecidableEq, Repr

/-- One image file directory: numeric tag id to value, in insertion order. -/
abbrev IFD := List (Nat × PiexifValue)

/-- The dict shape piexif.load guarantees; the thumbnail entry is skipped by
every loop in the source and is omitted. -/
structure PiexifMetadata where
  ifd0 : IFD
  ifdExif : IFD
  ifdGPS : IFD
  ifdInterop : IFD
  ifd1 : IFD
  deriving DecidableEq, Repr

/-- piexif.ImageIFD.Orientation. -/
def ImageIFD.Orientation : Nat := 274

/-- piexif.ImageIFD.DateTime. -/
def ImageIFD.DateTime : Nat := 306

/-- The fragment of the piexif.TAGS table (library data, an external
boundary) used in this development: numeric tag id to tag name. -/
def piexifTAGS : List (Nat × String) :=
  [(256, "ImageWidth"), (271, "Make"), (274, "Orientation"),
   (282, "XResolution"), (306, "DateTime"), (33434, "ExposureTime")]

namespace ExifOrientation

def Unspecified : Nat := 0
def Normal : Nat := 1
def HorizontalFlip : Nat := 2
def Rotation180 : Nat := 3
def VerticalFlip : Nat := 4
def Rotation90HorizontalFlip : Nat := 5
def Rotation90 : Nat := 6
def Rotation90VerticalFlip : Nat := 7
def Rotation270 : Nat := 8

end ExifOrientation

/-! ### Filesystem model for the write pipeline -/

/-- A file on disk as the pipeline observes it: whether QImageReader can read
it as an image, whether it is a jpeg (the only format piexif accepts), and
its exif segment if any. -/
structure FileData where
  isImage : Bool
  isJpg : Bool
  exif : Option PiexifMetadata
  deriving DecidableEq, Repr

/-- The filesystem: paths to file contents. -/
abbrev FS := List (String × FileData)

def fsLookup (fs : FS) (p : String) : Option FileData := assocFind fs p

def fsWrite (fs : FS) (p : String) (d : FileData) : FS := assocSet fs p d

def fsRemove (fs : FS) (p : String) : FS := fs.filter (fun e => e.1 != p)

/-- os.rename(src, dst): move the file at src onto dst, replacing any file
already there. -/
def fsRename (fs : FS) (src dest : String) : FS :=
  match fsLookup fs src with
  | some d => fsWrite (fsRemove fs src) dest d
  | none => fs

/-- tempfile.mkstemp(dir=os.getcwd(), suffix=ext) as used in
WriteImageRunner._write: an empty file is created inside the current working
directory. The random unique basename is abstracted to a fixed one; the
directory and the suffix follow the source. -/
def mkstempPath (dir sfx : String) : String := dir ++ "/tmpvimiv" ++ sfx

/-- The image formats the Qt save boundary can encode, recognised from the
file suffix (the decode/encode library is a black box per the spec). -/
def supportedExt (ext : String) : Bool :=
  [".jpg", ".jpeg", ".png", ".bmp", ".ppm", ".xbm", ".xpm"].contains ext

def isJpgExt (ext : String) : Bool := ext == ".jpg" || ext == ".jpeg"

/-- The empty file mkstemp leaves behind: not an image. -/
def emptyTempFile : FileData := ⟨false, false, none⟩

/-- QPixmap.save(filename): encodes the pixel data when the suffix names a
supported format; on failure (the source ignores the returned bool) the
empty file created by mkstemp remains. -/
def pixmapSave (ext : String) : FileData :=
  if supportedExt ext then ⟨true, isJpgExt ext, none⟩ else emptyTempFile

/-- A loaded Qt object (QPixmap or QMovie); the Nat tags the underlying
allocation so that aliasing of the pixmap roles is expressible. -/
inductive LoadedObj where
  | pix (id : Nat)
  | movie (id : Nat)
  deriving DecidableEq, Repr

/-- The runtime class of the buffer held by a WriteImageRunner: a QPixmap
(single still image), a QMovie (animation) or None (e.g. after loading a
vector graphic). -/
inductive QBuffer where
  | qpixmap
  | qmovie
  | nullObj
  deriving DecidableEq, Repr

/-- Process-level context of a write job: the working directory used by
mkstemp and whether the optional piexif import succeeded. -/
structure WriteEnv where
  cwd : String
  piexifAvailable : Bool
  deriving DecidableEq, Repr

/-- Terminal outcome of WriteImageRunner.run: success, or a logged
WriteError message. -/
inductive WriteOutcome where
  | committed
  | rejected (msg : String)
  deriving DecidableEq, Repr

/-- What running a job produced: the outcome (or an exception that escaped
the runnable), the resulting filesystem, and the temporary path used by
_write when it ran. -/
structure RunResult where
  outcome : Except PyExn WriteOutcome
  fs : FS
  tempPath : Option String
  deriving DecidableEq, Repr

/-- piexif.transplant(src, dest): copy the exif segment of the jpeg at src
verbatim into the jpeg at dest. InvalidImageDataError when either file is
not a jpeg, ValueError when src carries no exif segment, FileNotFoundError
when a path is missing. -/
def piexifTransplant (fs : FS) (src dest : String) : Except PyExn FS :=
  match fsLookup fs src with
  | none => .error .fileNotFoundError
  | some s =>
      if !s.isJpg then .error .invalidImageDataError
      else
        match s.exif with
        | none => .error .valueError
        | some e =>
            match fsLookup fs dest with
            | none => .error .fileNotFoundError
            | some d =>
                if !d.isJpg then .error .invalidImageDataError
                else .ok (fsWrite fs dest ⟨d.isImage, d.isJpg, some e⟩)

namespace WriteImageRunner

/-- WriteImageRunner._copy_exif: piexif.transplant with only
InvalidImageDataError suppressed (file is not a jpg). -/
def copy_exif (fs : FS) (src dest : String) : Except PyExn FS :=
  match piexifTransplant fs src dest with
  | .error .invalidImageDataError => .ok fs
  | r => r

/-- WriteImageRunner._can_write: a buffer that is not a QPixmap raises
WriteError (cannot write animations); an existing destination must itself be
readable as an image. -/
def can_write (fs : FS) (pixmap : QBuffer) (path : String) : Except PyExn Unit :=
  if pixmap ≠ .qpixmap then .error (.writeError "Cannot write animations")
  else
    match fsLookup fs path with
    | some fd =>
        if !fd.isImage then
          .error (.writeError ("Path '" ++ path ++ "' exists and is not an image"))
        else .ok ()
    | none => .ok ()

/-- WriteImageRunner._write after the temporary file holds the saved pixmap:
optional exif transplant from the pre-existing file at the destination into
the temporary file, os.rename of the temporary file onto the destination,
then the validity check which removes an invalid result. Returns the
uncaught exception if any together with the resulting filesystem. -/
def writeCore (env : WriteEnv) (fs1 : FS) (path tmp : String) : Option PyExn × FS :=
  match (if env.piexifAvailable then copy_exif fs1 path tmp else .ok fs1) with
  | .error e => (some e, fs1)
  | .ok fs2 =>
      let fs3 := fsRename fs2 tmp path
      match fsLookup fs3 path with
      | none => (some (.writeError "File not written, unknown exception"), fs3)
      | some fd =>
          if fd.isImage then (none, fs3)
          else (some (.writeError "No valid image written. Is the extention valid?"),
                fsRemove fs3 path)

/-- WriteImageRunner._write: mkstemp inside os.getcwd() with the
destination's extension as suffix, QPixmap.save onto the temporary file,
then writeCore. Also returns the temporary path, as mkstemp does. -/
def write (env : WriteEnv) (fs : FS) (_pixmap : QBuffer) (path : String) :
    Option PyExn × FS × String :=
  let ext := splitextExt path
  let tmp := mkstempPath env.cwd ext
  let fs1 := fsWrite fs tmp (pixmapSave ext)
  let r := writeCore env fs1 path tmp
  (r.1, r.2, tmp)

/-- WriteImageRunner.run: _can_write then _write, with WriteError caught and
logged (a rejected outcome); any other exception escapes the runnable. -/
def run (env : WriteEnv) (fs : FS) (pixmap : QBuffer) (path : String) : RunResult :=
  match can_write fs pixmap path with
  | .error (.writeError m) => ⟨.ok (.rejected m), fs, none⟩
  | .error e => ⟨.error e, fs, none⟩
  | .ok _ =>
      match write env fs pixmap path with
      | (some (.writeError m), fs2, tmp) => ⟨.ok (.rejected m), fs2, some tmp⟩
      | (some e, fs2, tmp) => ⟨.error e, fs2, some tmp⟩
      | (none, fs2, tmp) => ⟨.ok .committed, fs2, some tmp⟩

end WriteImageRunner

/-! ### The ImageFileHandler state (dirty flags, pixmap roles, pool) -/

/-- Modelled from the spec: imtransform.Transform (not under src/) tracks the
unsaved geometric-transform state; changed() reports the dirty flag and
reset() clears it. -/
structure Transform where
  changed : Bool
  deriving DecidableEq, Repr

def Transform.reset (_t : Transform) : Transform := ⟨false⟩

/-- Modelled from the spec: immanipulate.Manipulator (not under src/) tracks
the unsaved pixel-manipulation state via its own dirty flag. -/
structure Manipulator where
  changed : Bool
  deriving DecidableEq, Repr

/-- The Pixmaps storage class: the three roles over the loaded image. -/
structure Pixmaps where
  current : Option LoadedObj
  original : Option LoadedObj
  transformed : Option LoadedObj
  deriving DecidableEq, Repr

/-- Lifecycle tag of a job submitted to the thread pool. Submission through
QThreadPool.start only queues the runner; the handler never observes a
terminal state (terminal states are logged inside the runner). -/
inductive JobState where
  | queued
  | committed
  | rejected
  deriving DecidableEq, Repr

/-- A WriteImageRunner as submitted to the pool. -/
structure Job where
  pixmap : Option LoadedObj
  path : String
  state : JobState
  deriving DecidableEq, Repr

/-- The ImageFileHandler state: pixmap roles, the two dirty-state holders,
the currently loaded path and the jobs handed to the thread pool. -/
structure ImageFileHandler where
  pixmaps : Pixmaps
  transform : Transform
  manipulate : Manipulator
  path : String
  pool : List Job
  deriving DecidableEq, Repr

namespace ImageFileHandler

/-- ImageFileHandler._reset: only the transform state is reset. -/
def reset (st : ImageFileHandler) : ImageFileHandler :=
  { st with transform := st.transform.reset }

/-- ImageFileHandler.write_pixmap: construct a WriteImageRunner, start it on
the pool, then immediately call _reset. -/
def write_pixmap (st : ImageFileHandler) (pixmap : Option LoadedObj) (path : String) :
    ImageFileHandler :=
  { st with
      pool := st.pool ++ [⟨pixmap, path, .queued⟩],
      transform := st.transform.reset }

/-- ImageFileHandler._maybe_write: without the autowrite setting just reset;
with it, write the current pixmap when either dirty flag is set. -/
def maybe_write (autowrite : Bool) (st : ImageFileHandler) (path : String) :
    ImageFileHandler :=
  if !autowrite then reset st
  else if st.transform.changed || st.manipulate.changed then
    write_pixmap st st.pixmaps.current path
  else st

/-- ImageFileHandler._set_original: one object is assigned to all three
pixmap roles. -/
def set_original (st : ImageFileHandler) (p : Option LoadedObj) : ImageFileHandler :=
  { st with pixmaps := ⟨p, p, p⟩ }

/-- What QImageReader reports for a path. -/
structure ReaderInfo where
  canRead : Bool
  format : String
  supportsAnimation : Bool
  deriving DecidableEq, Repr

/-- ImageFileHandler._load: an unreadable path is only logged; an svg (when
QtSvg is importable) stores no object; an animation stores a QMovie; a still
image stores one freshly allocated QPixmap (tagged newId) through
_set_original; the loaded path is recorded in every non-error case. -/
def load (svgAvailable : Bool) (st : ImageFileHandler) (reader : ReaderInfo)
    (newId : Nat) (path : String) : ImageFileHandler :=
  if !reader.canRead then st
  else
    let st1 :=
      if reader.format == "svg" && svgAvailable then set_original st none
      else if reader.supportsAnimation then set_original st (some (.movie newId))
      else set_original st (some (.pix newId))
    { st1 with path := path }

end ImageFileHandler

/-! ### The metadata handlers (src/vimiv/imutils/exif.py) -/

/-- The raw_value of a pyexiv2 tag: a plain string, or a list of strings for
IPTC tags. -/
inductive RawValue where
  | str (s : String)
  | strList (xs : List String)
  deriving DecidableEq, Repr

/-- One pyexiv2 tag as exposed by ImageMetadata: its display name, its
human_value when the tag class provides one (accessing it otherwise raises
AttributeError), and its raw_value. -/
structure Pyexiv2Entry where
  name : String
  humanValue : Option String
  rawValue : RawValue
  deriving DecidableEq, Repr

/-- A read pyexiv2 ImageMetadata: full metadata keys to entries. -/
abbrev Pyexiv2Metadata := List (String × Pyexiv2Entry)

/-- Value formatting inside ExternalKeyHandler.fetch_key: human_value when
available, otherwise raw_value with list values joined by a comma. -/
def formatEntry (e : Pyexiv2Entry) : String :=
  match e.humanValue with
  | some v => v
  | none =>
      match e.rawValue with
      | .strList xs => String.intercalate ", " xs
      | .str v => v

/-- The fallback order of ExternalKeyHandler.fetch_key: the literal key, the
Exif.Image namespace, then the Exif.Photo namespace. -/
def exivNamespaces : List String := ["", "Exif.Image.", "Exif.Photo."]

/-- The loop body of ExternalKeyHandler.fetch_key: each candidate lookup
raising KeyError is logged and the next tried; the first present tag is
returned with its formatted value. -/
def pyexiv2FetchKeyGo (m : Pyexiv2Metadata) (baseKey : String) :
    List String → Option (String × String × String)
  | [] => none
  | pfx :: rest =>
      let key := pfx ++ baseKey
      match assocFind m key with
      | some e => some (key, e.name, formatEntry e)
      | none => pyexiv2FetchKeyGo m baseKey rest

/-- ExternalKeyHandler.fetch_key on a read ImageMetadata; None when every
candidate raises KeyError. -/
def pyexiv2FetchKey (m : Pyexiv2Metadata) (baseKey : String) :
    Option (String × String × String) :=
  pyexiv2FetchKeyGo m baseKey exivNamespaces

/-- One IFD of the loop in _ExternalKeyHandlerPiexif.fetch_key: a tag id
missing from piexif.TAGS raises KeyError, which the surrounding handler
turns into None for the whole lookup (modelled as the error case); a tag
with the requested name is formatted by its type category. -/
def piexifScanTags (key : String) : IFD → Except Unit (Option (String × String × String))
  | [] => .ok none
  | (tagId, v) :: rest =>
      match assocFind piexifTAGS tagId with
      | none => .error ()
      | some name =>
          if name ≠ key then piexifScanTags key rest
          else
            match v with
            | .num n => .ok (some (name, name, toString n))
            | .bytes s => .ok (some (name, name, s))
            | .rat n d => .ok (some (name, name, toString n ++ "/" ++ toString d))

/-- The IFD iteration of _ExternalKeyHandlerPiexif.fetch_key over the groups
of piexif.load in dict order, the thumbnail group skipped. -/
def piexifScanGroups (key : String) : List IFD → Option (String × String × String)
  | [] => none
  | g :: gs =>
      match piexifScanTags key g with
      | .error () => none
      | .ok (some r) => some r
      | .ok none => piexifScanGroups key gs

/-- _ExternalKeyHandlerPiexif.fetch_key: match on the text after the last
dot of the requested key across all groups. -/
def piexifFetchKey (m : PiexifMetadata) (baseKey : String) :
    Option (String × String × String) :=
  piexifScanGroups (afterLastDot baseKey) [m.ifd0, m.ifdExif, m.ifdGPS, m.ifdInterop, m.ifd1]

/-- The names of the tags of one IFD as _ExternalKeyHandlerPiexif.get_keys
yields them; a tag id missing from piexif.TAGS raises KeyError during
iteration. -/
def piexifNamesOf : IFD → Except PyExn (List String)
  | [] => .ok []
  | (tagId, _) :: rest =>
      match assocFind piexifTAGS tagId with
      | none => .error .keyError
      | some name => (piexifNamesOf rest).map (fun ns => name :: ns)

/-- _ExternalKeyHandlerPiexif.get_keys, the generator consumed: tag names of
every group except the thumbnail. -/
def piexifGetKeys (m : PiexifMetadata) : Except PyExn (List String) := do
  let a ← piexifNamesOf m.ifd0
  let b ← piexifNamesOf m.ifdExif
  let c ← piexifNamesOf m.ifdGPS
  let d ← piexifNamesOf m.ifdInterop
  let e ← piexifNamesOf m.ifd1
  return a ++ b ++ c ++ d ++ e

/-- piexif.insert(exif_bytes, dest): replace the exif segment of the jpeg at
dest (metadata modelled structurally rather than as bytes);
InvalidImageDataError when dest is not a jpeg, FileNotFoundError when it is
missing. -/
def piexifInsert (fs : FS) (meta : PiexifMetadata) (dest : String) : Except PyExn FS :=
  match fsLookup fs dest with
  | none => .error .fileNotFoundError
  | some d =>
      if !d.isJpg then .error .invalidImageDataError
      else .ok (fsWrite fs dest ⟨d.isImage, d.isJpg, some meta⟩)

/-- _ExternalKeyHandlerPiexif.copy_metadata: optionally overwrite the 0th
orientation tag with Normal (the suppressed KeyError cannot fire since
piexif.load always provides the 0th group), dump the held metadata and
insert it into dest, with InvalidImageDataError and ValueError logged and
swallowed. A handler whose file was missing holds None and the subscript
raises TypeError. -/
def piexifCopyMetadata (meta : Option PiexifMetadata) (fs : FS) (dest : String)
    (resetOrientation : Bool) : Except PyExn FS :=
  match meta with
  | none => .error .typeError
  | some m =>
      let m2 :=
        if resetOrientation then
          { m with ifd0 := assocSet m.ifd0 ImageIFD.Orientation (.num ExifOrientation.Normal) }
        else m
      match piexifInsert fs m2 dest with
      | .error .invalidImageDataError => .ok fs
      | .error .valueError => .ok fs
      | r => r

/-- _ExternalKeyHandlerPiexif.get_date_time: the DateTime tag of the 0th
group decoded, with InvalidImageDataError, FileNotFoundError and KeyError
suppressed into the empty string. A handler holding None raises TypeError on
the subscript; calling decode on a non-bytes value raises AttributeError. -/
def piexifGetDateTime (meta : Option PiexifMetadata) : Except PyExn String :=
  match meta with
  | none => .error .typeError
  | some m =>
      match assocFind m.ifd0 ImageIFD.DateTime with
      | some (.bytes s) => .ok s
      | some _ => .error .attributeError
      | none => .ok ""

/-- ExternalKeyHandler.get_date_time (pyexiv2): the raw_value of
Exif.Image.DateTime with KeyError suppressed into the empty string; when the
file was missing the metadata attribute was never set and the access raises
AttributeError. (An Exif DateTime raw value is a plain string; the list case
is rendered only for totality.) -/
def pyexiv2GetDateTime (meta : Option Pyexiv2Metadata) : Except PyExn String :=
  match meta with
  | none => .error .attributeError
  | some m =>
      match assocFind m "Exif.Image.DateTime" with
      | some e =>
          match e.rawValue with
          | .str s => .ok s
          | .strList xs => .ok (String.intercalate ", " xs)
      | none => .ok ""

/-- The MESSAGE_SUFFIX of _ExternalKeyHandlerBase, used by raise_exception
when no backend class replaced the base implementation. -/
def MESSAGE_SUFFIX_BASE : String := ". Please install pyexiv2 or piexif for exif support."

/-- _ExternalKeyHandlerBase.raise_exception: an UnsupportedExifOperation
carrying the operation description (the once-per-message warning is a log
effect outside this model). -/
def unsupportedMsg (op : String) : PyExn :=
  .unsupportedExifOperation (op ++ " is not supported" ++ MESSAGE_SUFFIX_BASE)

/-- Modelled from the spec: vimiv.utils.is_hex (not under src/) — whether a
tag's local name is a raw hexadecimal identifier. -/
def isHex (s : String) : Bool :=
  !s.data.isEmpty && s.data.all (fun c =>
    c.isDigit || (c ≥ 'a' && c ≤ 'f') || (c ≥ 'A' && c ≤ 'F'))

/-- The external key handler selected by check_external_dependancy together
with its per-file state: the pyexiv2-based ExternalKeyHandler (metadata none
when the file was missing, leaving the attribute unset), the piexif-based
_ExternalKeyHandlerPiexif (metadata None when the file was missing), or the
raising _ExternalKeyHandlerBase when neither library is importable. -/
inductive ExternalKeyHandler where
  | pyexiv2H (meta : Option Pyexiv2Metadata)
  | piexifH (meta : Option PiexifMetadata)
  | baseH
  deriving DecidableEq, Repr

namespace ExternalKeyHandler

/-- fetch_key across the three handler classes; a Python None result is
Option.none inside ok. -/
def fetch_key : ExternalKeyHandler → String → Except PyExn (Option (String × String × String))
  | .pyexiv2H none, _ => .error .attributeError
  | .pyexiv2H (some m), k => .ok (pyexiv2FetchKey m k)
  | .piexifH none, _ => .error .typeError
  | .piexifH (some m), k => .ok (piexifFetchKey m k)
  | .baseH, _ => .error (unsupportedMsg "Getting formatted keys")

/-- get_keys across the three handler classes, generator consumption
modelled eagerly; the pyexiv2 variant drops keys whose local name is a raw
hexadecimal identifier. -/
def get_keys : ExternalKeyHandler → Except PyExn (List String)
  | .pyexiv2H none => .error .attributeError
  | .pyexiv2H (some m) =>
      .ok ((m.filter (fun e => !isHex (afterLastDot e.1))).map (fun e => e.1))
  | .piexifH none => .error .typeError
  | .piexifH (some m) => piexifGetKeys m
  | .baseH => .error (unsupportedMsg "Getting exif keys")

/-- get_date_time across the three handler classes. -/
def get_date_time : ExternalKeyHandler → Except PyExn String
  | .pyexiv2H m => pyexiv2GetDateTime m
  | .piexifH m => piexifGetDateTime m
  | .baseH => .error (unsupportedMsg "Retrieving exif date-time")

/-- copy_metadata for the piexif handler class (the variant cited by the
spec); the base class raises through copy_exif. -/
def copy_metadata : ExternalKeyHandler → FS → String → Bool → Except PyExn FS
  | .piexifH m, fs, dest, reset => piexifCopyMetadata m fs dest reset
  | .pyexiv2H _, fs, _, _ => .ok fs
  | .baseH, _, _, _ => .error (unsupportedMsg "Copying exif data")

end ExternalKeyHandler

/-- The file probes behind _InternalKeyHandler (files.get_size_file,
files.imghdr.what, QImageReader.size — boundaries not under src/), recorded
as already-computed values for one path. -/
structure InternalFileInfo where
  filesize : String
  filetype : String
  width : Int
  height : Int
  deriving DecidableEq, Repr

/-- The dict built in _InternalKeyHandler.__init__: lowercase lookup key to
display key and computed value, in insertion order. -/
def internalTable (info : InternalFileInfo) : List (String × String × String) :=
  [("vimiv.filesize", ("Vimiv.FileSize", info.filesize)),
   ("vimiv.xdimension", ("Vimiv.XDimension", toString info.width)),
   ("vimiv.ydimension", ("Vimiv.YDimension", toString info.height)),
   ("vimiv.filetype", ("Vimiv.FileType", info.filetype))]

/-- _InternalKeyHandler.__getitem__: dict.get on the lowercased key yields
None for an unknown key and unpacking None raises TypeError; a known key
yields (display key, display key, computed value). -/
def internalGetItem (info : InternalFileInfo) (key : String) :
    Except PyExn (String × String × String) :=
  match assocFind (internalTable info) (pyLower key) with
  | some (k, v) => .ok (k, k, v)
  | none => .error .typeError

/-- _InternalKeyHandler.get_keys: the display keys of the table. -/
def internalGetKeys (info : InternalFileInfo) : List String :=
  (internalTable info).map (fun e => e.2.1)

/-- The MetadataHandler with its two lazily created handlers modelled as
already-present state. -/
structure MetadataHandler where
  info : InternalFileInfo
  ext : ExternalKeyHandler
  deriving DecidableEq, Repr

namespace MetadataHandler

/-- MetadataHandler.fetch_key: a key whose lowercase form starts with vimiv
goes to the internal handler, everything else to the external backend. -/
def fetch_key (h : MetadataHandler) (key : String) :
    Except PyExn (Option (String × String × String)) :=
  if pyStartsWith (pyLower key) "vimiv" then (internalGetItem h.info key).map some
  else h.ext.fetch_key key

/-- The attribute access self._fetch_key inside MetadataHandler.fetch_keys:
the class defines fetch_key but no _fetch_key and has no __getattr__ hook,
so the access raises AttributeError before any lookup happens. -/
def missing_fetch_key_attr (_h : MetadataHandler) (_key : String) :
    Except PyExn (Option (String × String × String)) :=
  .error .attributeError

/-- The loop of MetadataHandler.fetch_keys over the requested keys with the
accumulated dict: each stripped key is passed to self._fetch_key, KeyError
and TypeError (including the TypeError from unpacking a None result) drop
the key, and every other exception escapes. -/
def fetch_keys_from (h : MetadataHandler) (acc : List (String × String × String)) :
    List String → Except PyExn (List (String × String × String))
  | [] => .ok acc
  | k :: rest =>
      match missing_fetch_key_attr h (pyStrip k) with
      | .error .keyError => fetch_keys_from h acc rest
      | .error .typeError => fetch_keys_from h acc rest
      | .error e => .error e
      | .ok none => fetch_keys_from h acc rest
      | .ok (some (key, n, v)) => fetch_keys_from h (assocSet acc key (n, v)) rest

/-- MetadataHandler.fetch_keys. -/
def fetch_keys (h : MetadataHandler) (keys : List String) :
    Except PyExn (List (String × String × String)) :=
  fetch_keys_from h [] keys

/-- The loop of fetch_keys as it was evidently intended, calling the
fetch_key method the class defines; kept for comparison with the spec's
description of the batch behaviour. -/
def fetch_keys_intended_from (h : MetadataHandler) (acc : List (String × String × String)) :
    List String → Except PyExn (List (String × String × String))
  | [] => .ok acc
  | k :: rest =>
      match fetch_key h (pyStrip k) with
      | .error .keyError => fetch_keys_intended_from h acc rest
      | .error .typeError => fetch_keys_intended_from h acc rest
      | .error e => .error e
      | .ok none => fetch_keys_intended_from h acc rest
      | .ok (some (key, n, v)) => fetch_keys_intended_from h (assocSet acc key (n, v)) rest

/-- fetch_keys with the intended self.fetch_key call. -/
def fetch_keys_intended (h : MetadataHandler) (keys : List String) :
    Except PyExn (List (String × String × String)) :=
  fetch_keys_intended_from h [] keys

/-- MetadataHandler.get_keys: itertools.chain of the internal keys and the
external keys; the external get_keys call happens while building the chain,
so its exception escapes here. -/
def get_keys (h : MetadataHandler) : Except PyExn (List String) :=
  match h.ext.get_keys with
  | .error e => .error e
  | .ok ks => .ok (internalGetKeys h.info ++ ks)

end MetadataHandler

/-! ### Helper lemmas -/

/-- Updating a dict and reading the same key back yields the written value. -/
theorem assocFind_set_self {κ α : Type} [BEq κ] [LawfulBEq κ]
    (m : List (κ × α)) (k : κ) (v : α) :
    assocFind (assocSet m k v) k = some v := by
  induction m with
  | nil => simp [assocSet, assocFind]
  | cons e t ih =>
      by_cases he : (e.1 == k) = true <;>
        simp [assocSet, assocFind, he, ih]

/-- The orientation tag of the file stored at a path. -/
def fileOrientation (fs : FS) (p : String) : Option PiexifValue :=
  (fsLookup fs p).bind (fun fd => fd.exif.bind (fun m => assocFind m.ifd0 ImageIFD.Orientation))

/-! ### Claim theorems -/

/-- C6: a write job whose buffer is not a single still image is rejected up
front with the cannot-write-animations WriteError, and the filesystem — in
particular the destination path — is left untouched: no temporary file is
ever created. -/
theorem C6_nonstill_buffer_rejected (env : WriteEnv) (fs : FS) (b : QBuffer)
    (path : String) (h : b ≠ .qpixmap) :
    WriteImageRunner.run env fs b path =
      ⟨.ok (.rejected "Cannot write animations"), fs, none⟩ := by
  cases b
  · exact absurd rfl h
  · rfl
  · rfl

/-- C6 witness: an animation buffer at a concrete job. -/
theorem C6_witness :
    (QBuffer.qmovie ≠ QBuffer.qpixmap) ∧
      WriteImageRunner.run ⟨"/home/user", true⟩ [] .qmovie "/images/pic.jpg" =
        ⟨.ok (.rejected "Cannot write animations"), [], none⟩ :=
  ⟨by decide,
   C6_nonstill_buffer_rejected ⟨"/home/user", true⟩ [] .qmovie "/images/pic.jpg" (by decide)⟩

/-- C1 counterexample: with working directory /home/user, a job writing to
/images/pic.jpg encodes into a temporary file under /home/user — the
working directory — and not under the destination directory /images. -/
theorem C1_counterexample :
    (WriteImageRunner.write ⟨"/home/user", false⟩ [] .qpixmap "/images/pic.jpg").2.2 =
        "/home/user/tmpvimiv.jpg" ∧
      dirname "/home/user/tmpvimiv.jpg" = "/home/user" ∧
      dirname "/home/user/tmpvimiv.jpg" ≠ dirname "/images/pic.jpg" :=
  ⟨rfl, by decide, by decide⟩

/-- C1 amended: for every write job the temporary file is created by
mkstemp inside the process's current working directory, with the
destination's extension as suffix — which is the destination's own
directory only when that directory happens to be the working directory. -/
theorem C1_amended_temp_in_cwd (env : WriteEnv) (fs : FS) (b : QBuffer) (path : String) :
    (WriteImageRunner.write env fs b path).2.2 = mkstempPath env.cwd (splitextExt path) := rfl

/-- The handler state of C4's counterexample: a loaded image with unsaved
transform and manipulation edits and an idle pool. -/
def dirtyHandler : ImageFileHandler :=
  ⟨⟨some (.pix 0), some (.pix 0), some (.pix 0)⟩, ⟨true⟩, ⟨true⟩, "/images/pic.jpg", []⟩

/-- C4 counterexample: merely submitting a write job through write_pixmap
clears the transform dirty state although the submitted job is only queued
and nothing has reached the Committed state. -/
theorem C4_counterexample :
    (ImageFileHandler.write_pixmap dirtyHandler (some (.pix 0)) "/images/pic.jpg").transform.changed
        = false ∧
      (ImageFileHandler.write_pixmap dirtyHandler (some (.pix 0)) "/images/pic.jpg").pool =
        [⟨some (.pix 0), "/images/pic.jpg", .queued⟩] ∧
      JobState.queued ≠ JobState.committed := by
  refine ⟨rfl, rfl, by decide⟩

/-- C4 amended: the transform dirty state is reset optimistically — at the
very moment a job is submitted (still queued, its outcome unknown), and
even with autowrite disabled where nothing is submitted at all; the
manipulation dirty state is not touched by write_pixmap. -/
theorem C4_amended_optimistic_reset (st : ImageFileHandler) (px : Option LoadedObj) (p : String) :
    (st.write_pixmap px p).transform.changed = false ∧
      (st.write_pixmap px p).pool = st.pool ++ [⟨px, p, .queued⟩] ∧
      (st.write_pixmap px p).manipulate = st.manipulate ∧
      (ImageFileHandler.maybe_write false st p).transform.changed = false ∧
      (ImageFileHandler.maybe_write false st p).pool = st.pool := by
  refine ⟨rfl, rfl, rfl, ?_, ?_⟩ <;>
    simp [ImageFileHandler.maybe_write, ImageFileHandler.reset, Transform.reset]

/-- C9: loading a readable, non-svg, non-animated image assigns one freshly
allocated pixmap object to all three roles — current, original and
transformed alias the same object — and records the loaded path. -/
theorem C9_load_aliases_roles (svgAvail : Bool) (st : ImageFileHandler)
    (r : ImageFileHandler.ReaderInfo) (n : Nat) (p : String)
    (hr : r.canRead = true) (hs : (r.format == "svg" && svgAvail) = false)
    (ha : r.supportsAnimation = false) :
    (ImageFileHandler.load svgAvail st r n p).pixmaps.current = some (.pix n) ∧
      (ImageFileHandler.load svgAvail st r n p).pixmaps.original = some (.pix n) ∧
      (ImageFileHandler.load svgAvail st r n p).pixmaps.transformed = some (.pix n) ∧
      (ImageFileHandler.load svgAvail st r n p).path = p := by
  simp [ImageFileHandler.load, ImageFileHandler.set_original, hr, hs, ha]

/-- C9 witness: loading a concrete jpeg into an empty handler. -/
theorem C9_witness :
    ((true : Bool) = true ∧ ((("jpeg" : String) == "svg") && true) = false ∧
        (false : Bool) = false) ∧
      ((ImageFileHandler.load true ⟨⟨none, none, none⟩, ⟨false⟩, ⟨false⟩, "", []⟩
            ⟨true, "jpeg", false⟩ 7 "/images/pic.jpg").pixmaps.current = some (.pix 7) ∧
        (ImageFileHandler.load true ⟨⟨none, none, none⟩, ⟨false⟩, ⟨false⟩, "", []⟩
            ⟨true, "jpeg", false⟩ 7 "/images/pic.jpg").pixmaps.original = some (.pix 7) ∧
        (ImageFileHandler.load true ⟨⟨none, none, none⟩, ⟨false⟩, ⟨false⟩, "", []⟩
            ⟨true, "jpeg", false⟩ 7 "/images/pic.jpg").pixmaps.transformed = some (.pix 7) ∧
        (ImageFileHandler.load true ⟨⟨none, none, none⟩, ⟨false⟩, ⟨false⟩, "", []⟩
            ⟨true, "jpeg", false⟩ 7 "/images/pic.jpg").path = "/images/pic.jpg") :=
  ⟨⟨rfl, by decide, rfl⟩,
   C9_load_aliases_roles true ⟨⟨none, none, none⟩, ⟨false⟩, ⟨false⟩, "", []⟩
     ⟨true, "jpeg", false⟩ 7 "/images/pic.jpg" rfl (by decide) rfl⟩

/-- A metadata block with its 0th orientation tag overwritten by Normal, as
copy_metadata produces it when reset_orientation is requested. -/
def withNormalOrientation (m : PiexifMetadata) : PiexifMetadata :=
  { m with ifd0 := assocSet m.ifd0 ImageIFD.Orientation (.num ExifOrientation.Normal) }

/-- An exif block holding only the orientation tag Rotation90. -/
def rot90Meta : PiexifMetadata :=
  ⟨[(ImageIFD.Orientation, .num ExifOrientation.Rotation90)], [], [], [], []⟩

/-- A jpeg at the destination whose exif orientation is Rotation90. -/
def rotatedJpg : FileData := ⟨true, true, some rot90Meta⟩

/-- C2 counterexample: overwriting /images/pic.jpg (orientation Rotation90)
with piexif available commits, yet the written file keeps orientation
Rotation90 — the write job transplants the old exif verbatim and never
resets the orientation tag to Normal. -/
theorem C2_counterexample :
    (WriteImageRunner.run ⟨"/images", true⟩ [("/images/pic.jpg", rotatedJpg)]
          .qpixmap "/images/pic.jpg").outcome = .ok .committed ∧
      fileOrientation
          (WriteImageRunner.run ⟨"/images", true⟩ [("/images/pic.jpg", rotatedJpg)]
            .qpixmap "/images/pic.jpg").fs "/images/pic.jpg" =
        some (.num ExifOrientation.Rotation90) ∧
      ExifOrientation.Rotation90 ≠ ExifOrientation.Normal := by
  refine ⟨by decide, by decide, by decide⟩

/-- C2 amended: the write job copies the pre-existing destination file's
metadata verbatim into the freshly written file through piexif.transplant —
the orientation tag is carried over unchanged, never reset; the orientation
reset lives only in the backend-level copy_metadata, which with
reset_orientation true writes orientation Normal into the destination and
with reset_orientation false copies the source's orientation tag
unchanged. -/
theorem C2_amended_transplant_keeps_orientation (fs : FS) (src dest : String) :
    (∀ s e d, fsLookup fs src = some s → s.isJpg = true → s.exif = some e →
      fsLookup fs dest = some d → d.isJpg = true →
      WriteImageRunner.copy_exif fs src dest =
        .ok (fsWrite fs dest ⟨d.isImage, d.isJpg, some e⟩)) ∧
    (∀ m d, fsLookup fs dest = some d → d.isJpg = true →
      piexifCopyMetadata (some m) fs dest true =
          .ok (fsWrite fs dest ⟨d.isImage, d.isJpg, some (withNormalOrientation m)⟩) ∧
        fileOrientation
            (fsWrite fs dest ⟨d.isImage, d.isJpg, some (withNormalOrientation m)⟩) dest =
          some (.num ExifOrientation.Normal)) ∧
    (∀ m d, fsLookup fs dest = some d → d.isJpg = true →
      piexifCopyMetadata (some m) fs dest false =
          .ok (fsWrite fs dest ⟨d.isImage, d.isJpg, some m⟩) ∧
        fileOrientation (fsWrite fs dest ⟨d.isImage, d.isJpg, some m⟩) dest =
          assocFind m.ifd0 ImageIFD.Orientation) := by
  refine ⟨?_, ?_, ?_⟩
  · intro s e d hs hjs he hd hjd
    simp [WriteImageRunner.copy_exif, piexifTransplant, hs, hjs, he, hd, hjd]
  · intro m d hd hjd
    constructor
    · simp [piexifCopyMetadata, piexifInsert, hd, hjd, withNormalOrientation]
    · simp [fileOrientation, fsLookup, fsWrite, assocFind_set_self, withNormalOrientation]
  · intro m d hd hjd
    constructor
    · simp [piexifCopyMetadata, piexifInsert, hd, hjd]
    · simp [fileOrientation, fsLookup, fsWrite, assocFind_set_self]

/-- C2 witness: a concrete source handler with orientation Rotation90 copied
onto a concrete jpeg destination, with and without the reset. -/
theorem C2_witness :
    (fsLookup [("/images/pic.jpg", rotatedJpg)] "/images/pic.jpg" = some rotatedJpg ∧
        rotatedJpg.isJpg = true ∧ rotatedJpg.exif = some rot90Meta) ∧
      WriteImageRunner.copy_exif [("/images/pic.jpg", rotatedJpg)] "/images/pic.jpg"
          "/images/pic.jpg" =
        .ok (fsWrite [("/images/pic.jpg", rotatedJpg)] "/images/pic.jpg"
          ⟨rotatedJpg.isImage, rotatedJpg.isJpg, some rot90Meta⟩) ∧
      fileOrientation
          (fsWrite [("/images/pic.jpg", rotatedJpg)] "/images/pic.jpg"
            ⟨rotatedJpg.isImage, rotatedJpg.isJpg, some (withNormalOrientation rot90Meta)⟩)
          "/images/pic.jpg" =
        some (.num ExifOrientation.Normal) :=
  ⟨⟨by decide, by decide, by decide⟩,
   (C2_amended_transplant_keeps_orientation [("/images/pic.jpg", rotatedJpg)]
       "/images/pic.jpg" "/images/pic.jpg").1
     rotatedJpg rot90Meta rotatedJpg (by decide) (by decide) (by decide) (by decide) (by decide),
   ((C2_amended_transplant_keeps_orientation [("/images/pic.jpg", rotatedJpg)]
       "/images/pic.jpg" "/images/pic.jpg").2.1
     rot90Meta rotatedJpg (by decide) (by decide)).2⟩

/-- The MetadataHandler of a process without any metadata library: the
external handler is the raising base class. -/
def noBackendHandler : MetadataHandler := ⟨⟨"2.3K", "jpg", 200, 100⟩, .baseH⟩

/-- C3 counterexample: with no backend available, fetch_keys on
[vimiv.filesize, DateTime] raises AttributeError — its loop calls the
undefined attribute _fetch_key — instead of returning a mapping containing
vimiv.filesize. -/
theorem C3_counterexample :
    MetadataHandler.fetch_keys noBackendHandler ["vimiv.filesize", "DateTime"] =
      .error .attributeError := rfl

/-- C3 amended: fetch_keys raises AttributeError for every non-empty
request — the loop body calls self._fetch_key, which the class does not
define — so the per-key dropping is unreachable and only the empty request
yields the (empty) mapping. Even with the evidently intended fetch_key
call, the no-backend request would not degrade gracefully: vimiv.filesize
resolves internally but the DateTime lookup raises
UnsupportedExifOperation, which the loop does not catch. -/
theorem C3_amended_fetch_keys_raises (h : MetadataHandler) (k : String) (ks : List String) :
    MetadataHandler.fetch_keys h (k :: ks) = .error .attributeError ∧
      MetadataHandler.fetch_keys h [] = .ok [] ∧
      MetadataHandler.fetch_keys_intended noBackendHandler ["vimiv.filesize", "DateTime"] =
        .error (unsupportedMsg "Getting formatted keys") ∧
      MetadataHandler.fetch_key noBackendHandler "vimiv.filesize" =
        .ok (some ("Vimiv.FileSize", "Vimiv.FileSize", "2.3K")) :=
  ⟨rfl, rfl, by decide, by decide⟩

/-- A pyexiv2 metadata that happens to contain a literal vimivfoo tag: were
dispatch ever to reach the external backend, this lookup would succeed. -/
def vimivfooMeta : Pyexiv2Metadata := [("vimivfoo", ⟨"VimivFoo", some "42", .str "42"⟩)]

/-- The handler of C10: internal keys plus a pyexiv2 backend that could
resolve the literal key vimivfoo. -/
def vimivfooHandler : MetadataHandler := ⟨⟨"2.3K", "jpg", 200, 100⟩, .pyexiv2H (some vimivfooMeta)⟩

/-- C10 counterexample: fetch_key dispatches vimivfoo (no dot after vimiv)
to the internal handler — raising TypeError on the unknown key even though
the external backend could resolve it — but fetch_keys on [vimivfoo] raises
AttributeError through the undefined _fetch_key instead of silently
omitting the key from the mapping. -/
theorem C10_counterexample :
    MetadataHandler.fetch_key vimivfooHandler "vimivfoo" = .error .typeError ∧
      ExternalKeyHandler.fetch_key (.pyexiv2H (some vimivfooMeta)) "vimivfoo" =
        .ok (some ("vimivfoo", "VimivFoo", "42")) ∧
      MetadataHandler.fetch_keys vimivfooHandler ["vimivfoo"] = .error .attributeError := by
  refine ⟨by decide, by decide, rfl⟩

/-- C10 amended: every key whose lowercase form starts with vimiv — no
following dot required — is dispatched by fetch_key to the internal
handler and never reaches the external backend (the result is the same for
every backend); such a key outside the four internal ones raises TypeError
there. fetch_keys, however, raises AttributeError on any non-empty request
(undefined _fetch_key) instead of omitting the key; only its intended form
would drop the unknown internal key silently. -/
theorem C10_amended_vimiv_dispatch (info : InternalFileInfo)
    (ext1 ext2 : ExternalKeyHandler) (key : String)
    (hv : pyStartsWith (pyLower key) "vimiv" = true) :
    MetadataHandler.fetch_key ⟨info, ext1⟩ key = MetadataHandler.fetch_key ⟨info, ext2⟩ key ∧
      MetadataHandler.fetch_key ⟨info, ext1⟩ key = (internalGetItem info key).map some ∧
      (assocFind (internalTable info) (pyLower key) = none →
        MetadataHandler.fetch_key ⟨info, ext1⟩ key = .error .typeError) ∧
      MetadataHandler.fetch_keys ⟨info, ext1⟩ [key] = .error .attributeError ∧
      (pyStrip key = key → assocFind (internalTable info) (pyLower key) = none →
        MetadataHandler.fetch_keys_intended ⟨info, ext1⟩ [key] = .ok []) := by
  refine ⟨?_, ?_, ?_, rfl, ?_⟩
  · simp [MetadataHandler.fetch_key, hv]
  · simp [MetadataHandler.fetch_key, hv]
  · intro hk
    simp [MetadataHandler.fetch_key, hv, internalGetItem, hk, Except.map]
  · intro hst hk
    simp [MetadataHandler.fetch_keys_intended, MetadataHandler.fetch_keys_intended_from,
      hst, MetadataHandler.fetch_key, hv, internalGetItem, hk, Except.map]

/-- C10 witness: the concrete key vimivfoo on the concrete handler. -/
theorem C10_witness :
    pyStartsWith (pyLower "vimivfoo") "vimiv" = true ∧
      MetadataHandler.fetch_key ⟨⟨"2.3K", "jpg", 200, 100⟩, .pyexiv2H (some vimivfooMeta)⟩
          "vimivfoo" =
        MetadataHandler.fetch_key ⟨⟨"2.3K", "jpg", 200, 100⟩, .baseH⟩ "vimivfoo" :=
  ⟨by decide,
   (C10_amended_vimiv_dispatch ⟨"2.3K", "jpg", 200, 100⟩ (.pyexiv2H (some vimivfooMeta))
     .baseH "vimivfoo" (by decide)).1⟩

/-- C5 counterexample: with no metadata backend, MetadataHandler.get_keys
raises UnsupportedExifOperation — the eager external get_keys call — rather
than never raising. -/
theorem C5_counterexample :
    MetadataHandler.get_keys noBackendHandler =
      .error (unsupportedMsg "Getting exif keys") := rfl

/-- C5 amended: get_keys raises UnsupportedExifOperation when no backend is
available (as its docstring documents) and AttributeError when the pyexiv2
handler could not read the file; only when the backend holds read metadata
does it return, without raising, the internal display keys followed by the
backend keys, the pyexiv2 backend silently dropping raw-hexadecimal local
names. -/
theorem C5_amended_get_keys (info : InternalFileInfo) (m : Pyexiv2Metadata) :
    MetadataHandler.get_keys ⟨info, .baseH⟩ = .error (unsupportedMsg "Getting exif keys") ∧
      MetadataHandler.get_keys ⟨info, .pyexiv2H none⟩ = .error .attributeError ∧
      MetadataHandler.get_keys ⟨info, .pyexiv2H (some m)⟩ =
        .ok (internalGetKeys info ++
          (m.filter (fun e => !isHex (afterLastDot e.1))).map (fun e => e.1)) :=
  ⟨rfl, rfl, rfl⟩

/-- C7 counterexample: with no metadata backend, get_date_time raises
UnsupportedExifOperation instead of returning the empty string. -/
theorem C7_counterexample :
    ExternalKeyHandler.get_date_time .baseH =
      .error (unsupportedMsg "Retrieving exif date-time") := rfl

/-- C7 amended: get_date_time returns the empty string, without raising,
when the file's metadata was read and the DateTime tag is absent — for both
backends — but with no backend present it raises UnsupportedExifOperation,
and on a file that could not be read the piexif handler raises TypeError
and the pyexiv2 handler AttributeError. -/
theorem C7_amended_get_date_time (m : PiexifMetadata) (m2 : Pyexiv2Metadata)
    (h1 : assocFind m.ifd0 ImageIFD.DateTime = none)
    (h2 : assocFind m2 "Exif.Image.DateTime" = none) :
    ExternalKeyHandler.get_date_time (.piexifH (some m)) = .ok "" ∧
      ExternalKeyHandler.get_date_time (.pyexiv2H (some m2)) = .ok "" ∧
      ExternalKeyHandler.get_date_time (.piexifH none) = .error .typeError ∧
      ExternalKeyHandler.get_date_time (.pyexiv2H none) = .error .attributeError ∧
      ExternalKeyHandler.get_date_time .baseH =
        .error (unsupportedMsg "Retrieving exif date-time") := by
  refine ⟨?_, ?_, rfl, rfl, rfl⟩
  · simp [ExternalKeyHandler.get_date_time, piexifGetDateTime, h1]
  · simp [ExternalKeyHandler.get_date_time, pyexiv2GetDateTime, h2]

/-- C7 witness: empty metadata for both backends. -/
theorem C7_witness :
    (assocFind (⟨[], [], [], [], []⟩ : PiexifMetadata).ifd0 ImageIFD.DateTime = none ∧
        assocFind ([] : Pyexiv2Metadata) "Exif.Image.DateTime" = none) ∧
      ExternalKeyHandler.get_date_time (.piexifH (some ⟨[], [], [], [], []⟩)) = .ok "" :=
  ⟨⟨by decide, by decide⟩,
   (C7_amended_get_date_time ⟨[], [], [], [], []⟩ [] (by decide) (by decide)).1⟩

/-- C8: backend key resolution tries the literal key, then the Exif.Image
namespace, then the Exif.Photo namespace, in that fixed order, returning
the first candidate present with its formatted value; the key resolves to
None exactly when no candidate is present. -/
theorem C8_resolution_order (m : Pyexiv2Metadata) (k : String) :
    (∀ e, assocFind m k = some e →
        ExternalKeyHandler.fetch_key (.pyexiv2H (some m)) k =
          .ok (some (k, e.name, formatEntry e))) ∧
      (∀ e, assocFind m k = none → assocFind m ("Exif.Image." ++ k) = some e →
        ExternalKeyHandler.fetch_key (.pyexiv2H (some m)) k =
          .ok (some ("Exif.Image." ++ k, e.name, formatEntry e))) ∧
      (∀ e, assocFind m k = none → assocFind m ("Exif.Image." ++ k) = none →
        assocFind m ("Exif.Photo." ++ k) = some e →
        ExternalKeyHandler.fetch_key (.pyexiv2H (some m)) k =
          .ok (some ("Exif.Photo." ++ k, e.name, formatEntry e))) ∧
      (ExternalKeyHandler.fetch_key (.pyexiv2H (some m)) k = .ok none ↔
        assocFind m k = none ∧ assocFind m ("Exif.Image." ++ k) = none ∧
          assocFind m ("Exif.Photo." ++ k) = none) := by
  have hempty : ("" : String) ++ k = k := by simp
  refine ⟨?_, ?_, ?_, ?_⟩
  · intro e he
    simp [ExternalKeyHandler.fetch_key, pyexiv2FetchKey, exivNamespaces,
      pyexiv2FetchKeyGo, hempty, he]
  · intro e h0 h1
    simp [ExternalKeyHandler.fetch_key, pyexiv2FetchKey, exivNamespaces,
      pyexiv2FetchKeyGo, hempty, h0, h1]
  · intro e h0 h1 h2
    simp [ExternalKeyHandler.fetch_key, pyexiv2FetchKey, exivNamespaces,
      pyexiv2FetchKeyGo, hempty, h0, h1, h2]
  · constructor
    · intro hres
      rcases h0 : assocFind m k with _ | e0
      · rcases h1 : assocFind m ("Exif.Image." ++ k) with _ | e1
        · rcases h2 : assocFind m ("Exif.Photo." ++ k) with _ | e2
          · exact ⟨rfl, rfl, rfl⟩
          · simp [ExternalKeyHandler.fetch_key, pyexiv2FetchKey, exivNamespaces,
              pyexiv2FetchKeyGo, hempty, h0, h1, h2] at hres
        · simp [ExternalKeyHandler.fetch_key, pyexiv2FetchKey, exivNamespaces,
            pyexiv2FetchKeyGo, hempty, h0, h1] at hres
      · simp [ExternalKeyHandler.fetch_key, pyexiv2FetchKey, exivNamespaces,
          pyexiv2FetchKeyGo, hempty, h0] at hres
    · rintro ⟨h0, h1, h2⟩
      simp [ExternalKeyHandler.fetch_key, pyexiv2FetchKey, exivNamespaces,
        pyexiv2FetchKeyGo, hempty, h0, h1, h2]

/-- A concrete pyexiv2 metadata for the C8 witness: the shorthand Make only
resolves through the Exif.Image namespace. -/
def c8Meta : Pyexiv2Metadata :=
  [("Exif.Image.Make", ⟨"Make", some "Canon", .str "Canon"⟩),
   ("Exif.Photo.ExposureTime", ⟨"ExposureTime", none, .str "1/125"⟩)]

/-- C8 witness: resolving the shorthand Make through the Exif.Image
namespace on concrete metadata. -/
theorem C8_witness :
    (assocFind c8Meta "Make" = none ∧
        assocFind c8Meta ("Exif.Image." ++ "Make") =
          some ⟨"Make", some "Canon", .str "Canon"⟩) ∧
      ExternalKeyHandler.fetch_key (.pyexiv2H (some c8Meta)) "Make" =
        .ok (some ("Exif.Image." ++ "Make", "Make", "Canon")) :=
  ⟨⟨by decide, by decide⟩,
   (C8_resolution_order c8Meta "Make").2.1 ⟨"Make", some "Canon", .str "Canon"⟩
     (by decide) (by decide)⟩

end Vimiv
